import Mathlib

/-!
Verification development for the runtime core of the `minetest-rust`
engine: the loop scheduler (`src/game.rs`), the server role container
(`src/game/server.rs`) and the network connection
(`src/game/server/server_connection.rs`).

Modelling conventions:
* Rust `f64` values are modelled as rationals (`ℚ`); every value the
  claims mention (60.0, 20.0, `1.0 / goal`) is exact in `ℚ`.
* A Rust `panic!` / `todo!` is modelled as `Option.none` in the result
  of the function that panics.
* Side effects (calls into collaborator subsystems, `println!` logging,
  pacing sleeps) are modelled as explicit traces of actions or log
  lines returned next to the successor state.
* External collaborators whose sources are not part of the repository
  snapshot (the Lua scripting engine, the client presentation stack,
  the Rust standard library UTF-8 decoder) are modelled from the spec,
  each marked `Modelled from the spec:` in its doc comment.
-/

/-! ## Server path: `src/game/server.rs` and `server_connection.rs` -/

/-- Modelled from the spec: the opaque Scripting Engine handle
(`src/game/lua_engine.rs` is absent from the snapshot; only its
construction contract `LuaEngine::new(game_pointer, true)` and its
`on_tick(delta)` call appear in `server.rs`).  The handle carries the
boolean passed at construction; its internal state is opaque. -/
structure LuaEngine where
  is_server_vm : Bool
deriving DecidableEq, Repr

/-- `LuaEngine::new(game_pointer, b)`: constructs a fresh handle.
Modelled from the spec: construction always succeeds and yields a
blank, freshly initialized VM, independent of any previous handle. -/
def LuaEngine.new (b : Bool) : LuaEngine :=
  { is_server_vm := b }

/-- The server connection, from `server_connection.rs`.  The fields
`task` and `listener` are opaque transport handles; the embedding
records only their presence, which is what the panic branches and the
claims depend on. -/
structure ServerConnection where
  address : String
  port : ℤ
  has_task : Bool
  has_listener : Bool
deriving DecidableEq, Repr

/-- The server role container, from `server.rs`.  The `game_pointer`
and `server_pointer` reference-counted back-pointers are ownership
plumbing with no state of their own and are not modelled. -/
structure Server where
  lua_engine : Option LuaEngine
  connection : Option ServerConnection
deriving DecidableEq, Repr

/-- `Server::delete_lua_vm`: `self.lua_engine = None`. -/
def Server.delete_lua_vm (s : Server) : Server :=
  { s with lua_engine := none }

/-- `Server::create_lua_vm`:
`self.lua_engine = Some(LuaEngine::new(self.game_pointer.clone(), true))`. -/
def Server.create_lua_vm (s : Server) : Server :=
  { s with lua_engine := some (LuaEngine.new true) }

/-- `Server::reset_lua_vm`: deletes the current VM, then creates a new
one, in that order. -/
def Server.reset_lua_vm (s : Server) : Server :=
  (s.delete_lua_vm).create_lua_vm

/-- The collaborator calls `Server::on_tick` performs, in order. -/
inductive TickAction where
  | connReceive
  | luaTick (delta : ℚ)
deriving DecidableEq, Repr

/-- `Server::on_tick(delta)` from `server.rs` lines 75-90: first match
on `self.connection` (receive on `Some`, panic on `None`), then match
on `self.lua_engine` (`on_tick(delta)` on `Some`, panic on `None`).
The result is the ordered trace of collaborator invocations; `none`
models the panic. -/
def Server.on_tick (s : Server) (delta : ℚ) : Option (List TickAction) :=
  match s.connection with
  | none => none
  | some _ =>
    match s.lua_engine with
    | none => none
    | some _ => some [TickAction.connReceive, TickAction.luaTick delta]

/-- A network event, from the `message_io` `StoredNetEvent` enum as
consumed by `event_reaction`.  Endpoints and resource identifiers are
opaque; payload bytes are a list of naturals. -/
inductive StoredNetEvent where
  | Connected (endpoint : ℕ) (established : Bool)
  | Accepted (endpoint : ℕ) (resource_id : ℕ)
  | Message (endpoint : ℕ) (payload : List ℕ)
  | Disconnected (endpoint : ℕ)
deriving DecidableEq, Repr

/-- One `println!` line emitted by `event_reaction`, structurally. -/
inductive LogLine where
  | connectionCreated
  | bufferAttackDetected
  | receivedMessage (s : String)
deriving DecidableEq, Repr

/-- `ServerConnection::event_reaction` from `server_connection.rs`
lines 69-88, parametric in the Rust standard library decoder
`String::from_utf8` (modelled from the spec as an arbitrary partial
decoder `from_utf8 : bytes → Option String`, since the standard
library is external to the repository).  `Connected` logs; `Accepted`
and `Disconnected` hit `todo!()` (modelled `none`); `Message` decodes
the payload, substituting the empty string and logging the
buffer-attack line when decoding fails, then logs the received
message. -/
def ServerConnection.event_reaction (from_utf8 : List ℕ → Option String)
    (event : StoredNetEvent) : Option (List LogLine) :=
  match event with
  | StoredNetEvent.Connected _ _ => some [LogLine.connectionCreated]
  | StoredNetEvent.Accepted _ _ => none
  | StoredNetEvent.Message _ message =>
    match from_utf8 message with
    | some new_string => some [LogLine.receivedMessage new_string]
    | none =>
      some [LogLine.bufferAttackDetected, LogLine.receivedMessage ""]
  | StoredNetEvent.Disconnected _ => none

/-! ## Loop scheduler: `src/game.rs` -/

/-- Modelled from the spec: the client presentation stack
(`src/game/client.rs` is absent from the snapshot).  Only the
`should_quit()` observation consumed by `Game::main` is modelled; the
evolution of this flag by `Client::on_tick` is external to this core. -/
structure Client where
  should_quit : Bool
deriving DecidableEq, Repr

/-- Modelled from the spec: the server as held by the scheduler of
`game.rs` exposes, beyond `on_tick`, the `shutdown_is_approved()`
stop-request observation (`should_stop()` in the spec).  Only that
observation is modelled here; its evolution by the scripting engine is
external to this core. -/
structure SchedServer where
  shutdown_is_approved : Bool
deriving DecidableEq, Repr

/-- The `ServerClient` role union from `game.rs`. -/
inductive ServerClient where
  | Server (s : SchedServer)
  | Client (c : Client)
deriving DecidableEq, Repr

/-- `ServerClient::is_client`. -/
def ServerClient.is_client : ServerClient → Bool
  | ServerClient.Server _ => false
  | ServerClient.Client _ => true

/-- `ServerClient::is_server`. -/
def ServerClient.is_server : ServerClient → Bool
  | ServerClient.Server _ => true
  | ServerClient.Client _ => false

/-- The `VSyncMode` enum from `game.rs`. -/
inductive VSyncMode where
  | Off
  | On
  | Double
  | Triple
deriving DecidableEq, Repr

/-- The `Game` struct from `game.rs`.  The `spin_sleep_util`
`Interval` pacing object is modelled by its active period
(`interval_period`, in seconds); the rate and delta reporters are
wall-clock collaborators whose per-iteration outputs are supplied as
inputs to `Game.main`. -/
structure Game where
  should_close : Bool
  goal_frames_per_second : ℚ
  goal_ticks_per_second : ℚ
  serverclient : ServerClient
  interval_period : ℚ
  delta : ℚ
  current_fps : ℚ
  vsync_mode : VSyncMode
deriving DecidableEq, Repr

/-- The command-line configuration consumed by `Game::new`
(`crate::command_line::CommandLineInterface`; the fields read by
`game.rs` are `server`, `address`, `port`, `client_name`, `game`). -/
structure CommandLineInterface where
  server : Bool
  address : String
  port : ℤ
  client_name : String
  game : String
deriving DecidableEq, Repr

/-- Modelled from the spec: the initial stop-request state of a
freshly constructed role — no stop request is pending at
construction. -/
def SchedServer.new : SchedServer :=
  { shutdown_is_approved := false }

/-- Modelled from the spec: a fresh client has not requested quit. -/
def Client.new : Client :=
  { should_quit := false }

/-- `Game::new(cli)` from `game.rs` lines 85-147: goals fixed at 60.0
frames per second and 20.0 ticks per second, the interval period set
from whichever goal the role selects, `should_close` initialized
`false`, vsync mode `Off`. -/
def Game.new (cli : CommandLineInterface) : Game :=
  let goal_frames_per_second : ℚ := 60
  let goal_ticks_per_second : ℚ := 20
  let loop_helper_goal :=
    match cli.server with
    | true => goal_ticks_per_second
    | false => goal_frames_per_second
  { should_close := false
    goal_frames_per_second := goal_frames_per_second
    goal_ticks_per_second := goal_ticks_per_second
    serverclient :=
      match cli.server with
      | true => ServerClient.Server SchedServer.new
      | false => ServerClient.Client Client.new
    interval_period := 1 / loop_helper_goal
    delta := 0
    current_fps := 0
    vsync_mode := VSyncMode.Off }

/-- `Game::update_target_framerate_goal`: picks the goal matching the
current role and writes `1 / goal` into the interval period. -/
def Game.update_target_framerate_goal (g : Game) : Game :=
  let new_goal :=
    match g.serverclient with
    | ServerClient.Client _ => g.goal_frames_per_second
    | ServerClient.Server _ => g.goal_ticks_per_second
  { g with interval_period := 1 / new_goal }

/-- `Game::set_frame_rate_target(hz)`: stores the presentation goal,
then delegates to `update_target_framerate_goal`. -/
def Game.set_frame_rate_target (g : Game) (hz : ℚ) : Game :=
  Game.update_target_framerate_goal { g with goal_frames_per_second := hz }

/-- `Game::set_tick_rate_target(hz)`: stores the simulation goal, then
delegates to `update_target_framerate_goal`. -/
def Game.set_tick_rate_target (g : Game) (hz : ℚ) : Game :=
  Game.update_target_framerate_goal { g with goal_ticks_per_second := hz }

/-- `Game::shutdown_game`: acquires the write half of the shared flag
and sets it `true`.  Lock poisoning (the `Err` arm) cannot occur in
the single-writer discipline and is not modelled. -/
def Game.shutdown_game (g : Game) : Game :=
  { g with should_close := true }

/-- The body of the `ctrlc` termination-signal handler installed by
`Game::new`: writes `true` into the shared flag. -/
def Game.ctrlc_handler (g : Game) : Game :=
  { g with should_close := true }

/-- The wall-clock collaborator outputs one `Game::main` iteration
consumes: the delta reported by the delta reporter, and the optional
windowed rate sample from `RateReporter::increment_and_report`. -/
structure MainInputs where
  delta : ℚ
  fps_sample : Option ℚ
deriving DecidableEq, Repr

/-- The externally visible actions of one `Game::main` iteration, in
order. -/
inductive GameAction where
  | serverTick (delta : ℚ)
  | clientTick (delta : ℚ)
  | setWindowTitle (fps : ℚ)
  | intervalTick
deriving DecidableEq, Repr

/-- `Game::main` from `game.rs` lines 214-264: report the delta,
dispatch `on_tick` to the role and translate the role stop request
into `shutdown_game`, consume the optional rate sample (updating
`current_fps` and, for a client, the window title), and finally run
the end-of-iteration pacing `interval.tick()` exactly when the vsync
mode is `Off` or the role is a server. -/
def Game.main (g : Game) (inp : MainInputs) : Game × List GameAction :=
  let g1 := { g with delta := inp.delta }
  let roleStep : Game × List GameAction :=
    match g1.serverclient with
    | ServerClient.Server server =>
      let acts := [GameAction.serverTick g1.delta]
      if server.shutdown_is_approved then (g1.shutdown_game, acts) else (g1, acts)
    | ServerClient.Client client =>
      let acts := [GameAction.clientTick g1.delta]
      if client.should_quit then (g1.shutdown_game, acts) else (g1, acts)
  let g2 := roleStep.1
  let fpsStep : Game × List GameAction :=
    match inp.fps_sample with
    | some fps =>
      let g3 := { g2 with current_fps := fps }
      match g3.serverclient with
      | ServerClient.Client _ => (g3, [GameAction.setWindowTitle fps])
      | ServerClient.Server _ => (g3, [])
    | none => (g2, [])
  let g4 := fpsStep.1
  if g4.vsync_mode = VSyncMode.Off || g4.serverclient.is_server then
    (g4, roleStep.2 ++ fpsStep.2 ++ [GameAction.intervalTick])
  else
    (g4, roleStep.2 ++ fpsStep.2)

/-- `Game::enter_main_loop` from `game.rs` lines 269-281: run `main`,
then read the shared flag and break when it is `true`; otherwise loop.
The list argument supplies each iteration its wall-clock inputs and
bounds the recursion; the result is the final state together with the
number of completed iterations, `none` when the inputs run out before
the flag is observed `true`. -/
def Game.enter_main_loop : Game → List MainInputs → Option (Game × ℕ)
  | _, [] => none
  | g, inp :: rest =>
    let g1 := (Game.main g inp).1
    if g1.should_close then some (g1, 1)
    else
      match Game.enter_main_loop g1 rest with
      | some (gf, n) => some (gf, n + 1)
      | none => none

/-- An operation of the scheduler system: one loop iteration, a rate
setter, a `shutdown_game` call, or a delivery of the termination
signal. -/
inductive GameOp where
  | mainStep (inp : MainInputs)
  | setFrameRate (hz : ℚ)
  | setTickRate (hz : ℚ)
  | shutdownGame
  | ctrlcSignal
deriving DecidableEq, Repr

/-- Applying one operation to the scheduler state. -/
def GameOp.apply : GameOp → Game → Game
  | GameOp.mainStep inp, g => (Game.main g inp).1
  | GameOp.setFrameRate hz, g => g.set_frame_rate_target hz
  | GameOp.setTickRate hz, g => g.set_tick_rate_target hz
  | GameOp.shutdownGame, g => g.shutdown_game
  | GameOp.ctrlcSignal, g => g.ctrlc_handler

/-! ## Theorems -/

/-- Helper: the shared flag after one `Game::main` iteration is the
old flag, or-ed with the role stop request observed this iteration. -/
theorem Game.main_should_close (g : Game) (inp : MainInputs) :
    ((Game.main g inp).1).should_close =
      (g.should_close ||
        (match g.serverclient with
         | ServerClient.Server s => s.shutdown_is_approved
         | ServerClient.Client c => c.should_quit)) := by
  rcases g with ⟨sc, gf, gt, svc, ip, d, cf, vm⟩
  cases svc with
  | Server s =>
    cases hs : s.shutdown_is_approved <;>
      cases hf : inp.fps_sample <;>
        simp [Game.main, Game.shutdown_game, hs, hf] <;>
          split <;> simp
  | Client c =>
    cases hq : c.should_quit <;>
      cases hf : inp.fps_sample <;>
        simp [Game.main, Game.shutdown_game, hq, hf] <;>
          split <;> simp

/-- C1: for every delta, `Server::on_tick(delta)` with the connection
absent or the Lua engine absent panics (result `none`), in every such
ordering of missing subsystems. -/
theorem server_on_tick_panics_on_missing_subsystem (s : Server) (delta : ℚ)
    (h : s.connection = none ∨ s.lua_engine = none) :
    s.on_tick delta = none := by
  rcases h with h | h <;>
    cases hc : s.connection <;>
      simp_all [Server.on_tick]

/-- Witness for C1: a server with both subsystems absent, and one with
only the Lua engine absent, both panic on tick. -/
theorem server_on_tick_panics_on_missing_subsystem_witness :
    Server.on_tick { lua_engine := none, connection := none } 1 = none ∧
    Server.on_tick
      { lua_engine := none
        connection := some { address := "127.0.0.1", port := 30001,
                             has_task := true, has_listener := true } } 1 = none :=
  ⟨server_on_tick_panics_on_missing_subsystem _ 1 (Or.inl rfl),
   server_on_tick_panics_on_missing_subsystem _ 1 (Or.inr rfl)⟩

/-- C5: with both subsystems present, `Server::on_tick(delta)` emits
exactly the trace of one connection receive followed by one scripting
engine tick with `delta`: each collaborator is invoked exactly once
and the network poll strictly precedes the scripting tick. -/
theorem server_on_tick_poll_precedes_lua_tick (s : Server) (delta : ℚ)
    (c : ServerConnection) (l : LuaEngine)
    (hc : s.connection = some c) (hl : s.lua_engine = some l) :
    s.on_tick delta =
      some [TickAction.connReceive, TickAction.luaTick delta] := by
  simp [Server.on_tick, hc, hl]

/-- Witness for C5: a fully constructed server ticks with the
receive-then-lua trace. -/
theorem server_on_tick_poll_precedes_lua_tick_witness :
    Server.on_tick
      { lua_engine := some { is_server_vm := true }
        connection := some { address := "127.0.0.1", port := 30001,
                             has_task := true, has_listener := true } } (1/20) =
      some [TickAction.connReceive, TickAction.luaTick (1/20)] :=
  server_on_tick_poll_precedes_lua_tick _ (1/20) _ _ rfl rfl

/-- C9: for a server whose connection is present, `reset_lua_vm`
leaves the Lua engine equal to a freshly constructed
`LuaEngine::new(_, true)` handle, independent of every pre-reset
engine state, and an immediately following `on_tick` succeeds (full
receive-then-tick trace, no missing-subsystem panic). -/
theorem server_reset_then_on_tick_succeeds (s : Server) (delta : ℚ)
    (c : ServerConnection) (hc : s.connection = some c) :
    (s.reset_lua_vm).lua_engine = some (LuaEngine.new true) ∧
    (s.reset_lua_vm).on_tick delta =
      some [TickAction.connReceive, TickAction.luaTick delta] := by
  constructor
  · simp [Server.reset_lua_vm, Server.delete_lua_vm, Server.create_lua_vm]
  · simp [Server.reset_lua_vm, Server.delete_lua_vm, Server.create_lua_vm,
      Server.on_tick, hc]

/-- Witness for C9: resetting a server that still has a stale engine
(`is_server_vm := false` marks it distinguishable from a fresh one)
yields the fresh handle and a successful tick. -/
theorem server_reset_then_on_tick_succeeds_witness :
    (Server.reset_lua_vm
      { lua_engine := some { is_server_vm := false }
        connection := some { address := "127.0.0.1", port := 30001,
                             has_task := true, has_listener := true } }).lua_engine =
      some (LuaEngine.new true) ∧
    (Server.reset_lua_vm
      { lua_engine := some { is_server_vm := false }
        connection := some { address := "127.0.0.1", port := 30001,
                             has_task := true, has_listener := true } }).on_tick 2 =
      some [TickAction.connReceive, TickAction.luaTick 2] :=
  server_reset_then_on_tick_succeeds _ 2 _ rfl

/-- C8: for every decoder and every event contents, reacting to a
`PeerAccepted` (`Accepted`) or `PeerDisconnected` (`Disconnected`)
network event reaches the `todo!()` stub: an unconditional fatal
abort, modelled as `none`. -/
theorem event_reaction_accepted_disconnected_abort
    (from_utf8 : List ℕ → Option String) (e r p : ℕ) :
    ServerConnection.event_reaction from_utf8 (StoredNetEvent.Accepted e r)
      = none ∧
    ServerConnection.event_reaction from_utf8 (StoredNetEvent.Disconnected p)
      = none := by
  exact ⟨rfl, rfl⟩

/-- C4: for every decoder standing for `String::from_utf8` and every
`Message` event: when the payload decodes to a text `s`, the reaction
succeeds and surfaces exactly `s` (the single received-message log
carries `s` unchanged); when the payload does not decode, the reaction
does not panic and its output is the fixed buffer-attack log followed
by a received-message log carrying the empty string — a constant
independent of the payload, so no payload data is forwarded. -/
theorem event_reaction_message_utf8 (from_utf8 : List ℕ → Option String)
    (endpoint : ℕ) (payload : List ℕ) :
    (∀ s, from_utf8 payload = some s →
      ServerConnection.event_reaction from_utf8
          (StoredNetEvent.Message endpoint payload) =
        some [LogLine.receivedMessage s]) ∧
    (from_utf8 payload = none →
      ServerConnection.event_reaction from_utf8
          (StoredNetEvent.Message endpoint payload) =
        some [LogLine.bufferAttackDetected, LogLine.receivedMessage ""]) := by
  constructor
  · intro s hs
    simp [ServerConnection.event_reaction, hs]
  · intro hn
    simp [ServerConnection.event_reaction, hn]

/-- Witness for C4: under a concrete decoder that accepts only the
byte list `[104]` (decoding it to `"h"`), the valid payload is
surfaced unchanged and the invalid payload `[255]` is logged and
discarded without a panic. -/
theorem event_reaction_message_utf8_witness :
    ServerConnection.event_reaction
        (fun l => if l = [104] then some "h" else none)
        (StoredNetEvent.Message 0 [104]) =
      some [LogLine.receivedMessage "h"] ∧
    ServerConnection.event_reaction
        (fun l => if l = [104] then some "h" else none)
        (StoredNetEvent.Message 0 [255]) =
      some [LogLine.bufferAttackDetected, LogLine.receivedMessage ""] :=
  ⟨(event_reaction_message_utf8 _ 0 [104]).1 "h" (by simp),
   (event_reaction_message_utf8 _ 0 [255]).2 (by simp)⟩

/-- C2: once the shared shutdown flag is `true` at the start of a loop
iteration, `enter_main_loop` executes exactly one more full iteration
of `main` — never zero (it never returns mid-iteration or immediately)
and never more than one — and then returns, for every supply of
wall-clock inputs. -/
theorem enter_main_loop_stops_within_one_iteration (g : Game)
    (inp : MainInputs) (rest : List MainInputs)
    (h : g.should_close = true) :
    Game.enter_main_loop g (inp :: rest) = some ((Game.main g inp).1, 1) := by
  have h1 : ((Game.main g inp).1).should_close = true := by
    rw [Game.main_should_close, h, Bool.true_or]
  simp [Game.enter_main_loop, h1]

/-- Witness for C2: a client game whose flag is already set finishes
after exactly one more iteration. -/
theorem enter_main_loop_stops_within_one_iteration_witness :
    Game.enter_main_loop
      { should_close := true, goal_frames_per_second := 60,
        goal_ticks_per_second := 20,
        serverclient := ServerClient.Client { should_quit := false },
        interval_period := 1/60, delta := 0, current_fps := 0,
        vsync_mode := VSyncMode.Off }
      [{ delta := 1/60, fps_sample := none }, { delta := 1/60, fps_sample := none }] =
      some ((Game.main
        { should_close := true, goal_frames_per_second := 60,
          goal_ticks_per_second := 20,
          serverclient := ServerClient.Client { should_quit := false },
          interval_period := 1/60, delta := 0, current_fps := 0,
          vsync_mode := VSyncMode.Off }
        { delta := 1/60, fps_sample := none }).1, 1) :=
  enter_main_loop_stops_within_one_iteration _ _ _ rfl

/-- C3: the shared shutdown flag is monotone: along every sequence of
system operations (loop iterations, rate setters, `shutdown_game`
calls, signal-handler deliveries), once the flag holds `true` it is
never reset to `false`. -/
theorem shutdown_flag_monotone (ops : List GameOp) (g : Game)
    (h : g.should_close = true) :
    (ops.foldl (fun gg op => GameOp.apply op gg) g).should_close = true := by
  induction ops generalizing g with
  | nil => exact h
  | cons op rest ih =>
    simp only [List.foldl_cons]
    apply ih
    cases op with
    | mainStep inp => rw [GameOp.apply, Game.main_should_close, h, Bool.true_or]
    | setFrameRate hz =>
      simpa [GameOp.apply, Game.set_frame_rate_target,
        Game.update_target_framerate_goal] using h
    | setTickRate hz =>
      simpa [GameOp.apply, Game.set_tick_rate_target,
        Game.update_target_framerate_goal] using h
    | shutdownGame => simp [GameOp.apply, Game.shutdown_game]
    | ctrlcSignal => simp [GameOp.apply, Game.ctrlc_handler]

/-- Witness for C3: a server game with the flag set keeps it set
across a concrete sequence of one of each operation. -/
theorem shutdown_flag_monotone_witness :
    (List.foldl (fun gg op => GameOp.apply op gg)
      { should_close := true, goal_frames_per_second := 60,
        goal_ticks_per_second := 20,
        serverclient := ServerClient.Server { shutdown_is_approved := false },
        interval_period := 1/20, delta := 0, current_fps := 0,
        vsync_mode := VSyncMode.Off }
      [GameOp.mainStep { delta := 1/20, fps_sample := some 20 },
       GameOp.setFrameRate 144, GameOp.setTickRate 30,
       GameOp.shutdownGame, GameOp.ctrlcSignal]).should_close = true :=
  shutdown_flag_monotone _ _ rfl

/-- C6: in every `Game::main` iteration, the end-of-iteration pacing
step `interval.tick()` appears in the iteration trace exactly when the
vsync mode is `Off` or the active role is a server; in any other mode
with a client role the scheduler does not sleep. -/
theorem interval_tick_iff_vsync_off_or_server (g : Game) (inp : MainInputs) :
    GameAction.intervalTick ∈ (Game.main g inp).2 ↔
      (g.vsync_mode = VSyncMode.Off ∨ g.serverclient.is_server = true) := by
  rcases g with ⟨sc, gf, gt, svc, ip, d, cf, vm⟩
  cases svc with
  | Server s =>
    cases hs : s.shutdown_is_approved <;>
      cases hf : inp.fps_sample <;>
        simp [Game.main, Game.shutdown_game, ServerClient.is_server, hs, hf]
  | Client c =>
    cases hq : c.should_quit <;>
      cases hf : inp.fps_sample <;>
        simp [Game.main, Game.shutdown_game, ServerClient.is_server, hq, hf] <;>
          split <;> simp_all

/-- C7: role isolation of the rate setters.  For every `hz`: on a
server whose interval period equals `1 / ticks_per_second_goal` (as
every reachable server state has), `set_frame_rate_target(hz)` leaves
the period unchanged and still equal to `1 / ticks_per_second_goal`;
symmetrically, on a client whose period equals
`1 / frames_per_second_goal`, `set_tick_rate_target(hz)` leaves the
period unchanged and still equal to `1 / frames_per_second_goal`. -/
theorem rate_setters_role_isolation (g : Game) (hz : ℚ) :
    (g.serverclient.is_server = true →
      g.interval_period = 1 / g.goal_ticks_per_second →
      (g.set_frame_rate_target hz).interval_period = g.interval_period ∧
      (g.set_frame_rate_target hz).interval_period =
        1 / g.goal_ticks_per_second) ∧
    (g.serverclient.is_client = true →
      g.interval_period = 1 / g.goal_frames_per_second →
      (g.set_tick_rate_target hz).interval_period = g.interval_period ∧
      (g.set_tick_rate_target hz).interval_period =
        1 / g.goal_frames_per_second) := by
  rcases g with ⟨sc, gf, gt, svc, ip, d, cf, vm⟩
  cases svc <;>
    simp [Game.set_frame_rate_target, Game.set_tick_rate_target,
      Game.update_target_framerate_goal, ServerClient.is_server,
      ServerClient.is_client] <;>
    intro h <;> simp [h]

/-- Witness for C7: a concrete server game is unaffected by
`set_frame_rate_target 144`, and a concrete client game is unaffected
by `set_tick_rate_target 30`. -/
theorem rate_setters_role_isolation_witness :
    ((Game.set_frame_rate_target
      { should_close := false, goal_frames_per_second := 60,
        goal_ticks_per_second := 20,
        serverclient := ServerClient.Server { shutdown_is_approved := false },
        interval_period := 1/20, delta := 0, current_fps := 0,
        vsync_mode := VSyncMode.Off } 144).interval_period = 1/20 ∧
      (Game.set_frame_rate_target
      { should_close := false, goal_frames_per_second := 60,
        goal_ticks_per_second := 20,
        serverclient := ServerClient.Server { shutdown_is_approved := false },
        interval_period := 1/20, delta := 0, current_fps := 0,
        vsync_mode := VSyncMode.Off } 144).interval_period = 1/20) ∧
    ((Game.set_tick_rate_target
      { should_close := false, goal_frames_per_second := 60,
        goal_ticks_per_second := 20,
        serverclient := ServerClient.Client { should_quit := false },
        interval_period := 1/60, delta := 0, current_fps := 0,
        vsync_mode := VSyncMode.Off } 30).interval_period = 1/60 ∧
      (Game.set_tick_rate_target
      { should_close := false, goal_frames_per_second := 60,
        goal_ticks_per_second := 20,
        serverclient := ServerClient.Client { should_quit := false },
        interval_period := 1/60, delta := 0, current_fps := 0,
        vsync_mode := VSyncMode.Off } 30).interval_period = 1/60) :=
  ⟨(rate_setters_role_isolation _ 144).1 rfl rfl,
   (rate_setters_role_isolation _ 30).2 rfl rfl⟩

/-- C10: for every command line, `Game::new` fixes the presentation
goal at 60 frames per second and the simulation goal at 20 ticks per
second (neither is configurable), so the initial interval period is
`1/20` second for a server-role configuration and `1/60` second for a
client-role configuration. -/
theorem game_new_fixed_rate_goals (cli : CommandLineInterface) :
    (Game.new cli).goal_frames_per_second = 60 ∧
    (Game.new cli).goal_ticks_per_second = 20 ∧
    (Game.new cli).interval_period =
      (if cli.server then (1 : ℚ)/20 else 1/60) := by
  cases hs : cli.server <;> simp [Game.new, hs]
